import Mathlib

/-!
Verification of the cost-query resolution and caching engine of the
costops-ai repository: cache-key derivation, date-window resolution,
synchronous report resolution, comparison-period normalization, the
deferred processor, and the intent validator.

The definitions below are shallow embeddings of the JavaScript source.
External collaborators (billing backend, narrative generator, document
renderer, notification channel) are modelled as oracle inputs carried in
environment records; the durable cache store is modelled as an association
list with last-writer-wins semantics.
-/

deriving instance DecidableEq for Except

/-- A calendar date as JavaScript exposes it: year from getFullYear,
month from getMonth (0-based), day from getDate. The deployed runtime
(AWS Lambda) runs with the process time zone set to UTC, so local time and
UTC coincide and a Date used only at day granularity is just this triple. -/
structure Ymd where
  year : Int
  month : Int
  day : Int
deriving DecidableEq, Repr

/-- Day count since 1970-01-01 of a calendar date (month 1-based here),
the standard civil-from-days correspondence used to model JavaScript Date
day arithmetic. Total on all inputs; linear in the day argument, which is
exactly how Date.setDate normalizes out-of-range days. -/
def daysFromCivil (y m d : Int) : Int :=
  let y2 := if m ≤ 2 then y - 1 else y
  let era := y2 / 400
  let yoe := y2 - era * 400
  let mp := if 2 < m then m - 3 else m + 9
  let doy := (153 * mp + 2) / 5 + d - 1
  let doe := yoe * 365 + yoe / 4 - yoe / 100 + doy
  era * 146097 + doe - 719468

/-- Inverse of daysFromCivil: the calendar date (month 0-based, as
getMonth reports it) of a day count since 1970-01-01. -/
def civilFromDays (z0 : Int) : Ymd :=
  let z := z0 + 719468
  let era := z / 146097
  let doe := z - era * 146097
  let yoe := (doe - doe / 1460 + doe / 36524 - doe / 146096) / 365
  let y := yoe + era * 400
  let doy := doe - (365 * yoe + yoe / 4 - yoe / 100)
  let mp := (5 * doy + 2) / 153
  let d := doy - (153 * mp + 2) / 5 + 1
  let m := if mp < 10 then mp + 3 else mp - 9
  { year := y + (if m ≤ 2 then 1 else 0), month := m - 1, day := d }

/-- JavaScript new Date(year, month, 1): a year argument 0..99 is mapped to
1900..1999, and the month argument is normalized into the year; with day
fixed at 1 no day carrying can occur, so the result is direct. -/
def jsMonthDate (year month : Int) : Ymd :=
  let yr := if 0 ≤ year ∧ year ≤ 99 then year + 1900 else year
  { year := yr + month / 12, month := month % 12, day := 1 }

/-- JavaScript d.setDate(n): replaces the day of month with n, normalizing
overflow and underflow through the calendar. -/
def jsSetDate (d : Ymd) (n : Int) : Ymd :=
  civilFromDays (daysFromCivil d.year (d.month + 1) n)

/-- Zero-pad the decimal representation to the given width. -/
def padTo (width : Nat) (n : Int) : String :=
  let s := toString n
  if s.length < width then String.mk (List.replicate (width - s.length) '0') ++ s else s

/-- The date part of JavaScript toISOString (UTC process time zone):
YYYY-MM-DD, with getMonth converted back to 1-based. -/
def isoDate (d : Ymd) : String :=
  padTo 4 d.year ++ "-" ++ padTo 2 (d.month + 1) ++ "-" ++ padTo 2 d.day

/-- Comparison of two dates as JavaScript compares the corresponding Date
values: chronological order, which for normalized calendar dates is
lexicographic on (year, month, day). -/
def ymdLt (a b : Ymd) : Bool :=
  decide (a.year < b.year ∨ (a.year = b.year ∧
    (a.month < b.month ∨ (a.month = b.month ∧ a.day < b.day))))

/-- Chronological less-or-equal on dates. -/
def ymdLe (a b : Ymd) : Bool :=
  ymdLt a b || decide (a = b)

/-- Lowercasing of one ASCII character. -/
def charToLower (c : Char) : Char :=
  if 65 ≤ c.toNat ∧ c.toNat ≤ 90 then Char.ofNat (c.toNat + 32) else c

/-- ASCII lowercasing, modelling String.prototype.toLowerCase on the
ASCII intent strings the system routes on. -/
def toLowerStr (s : String) : String := String.mk (s.data.map charToLower)

/-- Whitespace as String.prototype.trim strips it (the characters relevant
to the narrative outputs handled here). -/
def isWhitespaceChar (c : Char) : Bool :=
  c == ' ' || c == '\t' || c == '\n' || c == '\r' || c == '\x0c' || c == '\x08'

/-- JavaScript String.prototype.trim: whitespace removed from both ends. -/
def trimStr (s : String) : String :=
  String.mk (((s.data.dropWhile isWhitespaceChar).reverse.dropWhile isWhitespaceChar).reverse)

/-- Whether the first character list starts the second. -/
def leadsWith : List Char → List Char → Bool
  | [], _ => true
  | _ :: _, [] => false
  | a :: as, b :: bs => a == b && leadsWith as bs

/-- Helper scanning every suffix for a substring match. -/
def containsSubAux (sub : List Char) : List Char → Bool
  | [] => sub.isEmpty
  | a :: rest => leadsWith sub (a :: rest) || containsSubAux sub rest

/-- JavaScript String.prototype.includes. -/
def containsSub (s sub : String) : Bool := containsSubAux sub.data s.data

/-- Lowercase hex digit for a value below 16. -/
def hexDigitChar (n : Nat) : Char :=
  if n < 10 then Char.ofNat (48 + n) else Char.ofNat (87 + n)

/-- Escaping of one character as JSON.stringify performs it. -/
def jsonEscapeChar (c : Char) : String :=
  if c = '"' then "\\\""
  else if c = '\\' then "\\\\"
  else if c = '\n' then "\\n"
  else if c = '\r' then "\\r"
  else if c = '\t' then "\\t"
  else if c = '\x08' then "\\b"
  else if c = '\x0c' then "\\f"
  else if c.toNat < 32 then
    "\\u00" ++ String.mk [hexDigitChar (c.toNat / 16), hexDigitChar (c.toNat % 16)]
  else String.singleton c

/-- Escaping of a whole string as JSON.stringify performs it. -/
def jsonEscape (s : String) : String := String.join (s.data.map jsonEscapeChar)

/-- JSON.stringify of a string value: quoted and escaped. -/
def jsonStr (s : String) : String := "\"" ++ jsonEscape s ++ "\""

/-- UTF-8 encoding of one character, bytes as Nat. -/
def utf8EncodeCharNat (c : Char) : List Nat :=
  let n := c.toNat
  if n < 128 then [n]
  else if n < 2048 then [192 + n / 64, 128 + n % 64]
  else if n < 65536 then [224 + n / 4096, 128 + (n / 64) % 64, 128 + n % 64]
  else [240 + n / 262144, 128 + (n / 4096) % 64, 128 + (n / 64) % 64, 128 + n % 64]

/-- UTF-8 bytes of a string, as Buffer.from(s) produces them. -/
def utf8Bytes (s : String) : List Nat := (s.data.map utf8EncodeCharNat).flatten

/-- The base64 alphabet. -/
def base64Char (n : Nat) : Char :=
  "ABCDEFGHIJKLMNOPQRSTUVWXYZabcdefghijklmnopqrstuvwxyz0123456789+/".data.getD n 'A'

/-- Standard base64 encoding with padding, as Buffer.toString with the
base64 encoding produces it. -/
def base64Encode : List Nat → String
  | [] => ""
  | [a] =>
    String.mk [base64Char (a / 4), base64Char ((a % 4) * 16)] ++ "=="
  | [a, b] =>
    String.mk [base64Char (a / 4), base64Char ((a % 4) * 16 + b / 16),
               base64Char ((b % 16) * 4)] ++ "="
  | a :: b :: c :: rest =>
    String.mk [base64Char (a / 4), base64Char ((a % 4) * 16 + b / 16),
               base64Char ((b % 16) * 4 + c / 64), base64Char (c % 64)] ++ base64Encode rest

/-- generateCacheKey from the source: base64 of the serialized key params.
The call sites below build the exact JSON.stringify output for their
params object (JSON.stringify serializes fields in insertion order, which
in the source is fixed by the code constructing the object). -/
def generateCacheKey (keyString : String) : String := base64Encode (utf8Bytes keyString)

/-- A comparison period as the translator supplies it: a start and an end
date (the source object's start and end fields; end is a reserved word in
Lean so the field is named stop). -/
structure Period where
  start : Ymd
  stop : Ymd
deriving DecidableEq, Repr

/-- The parsed intent object produced by the translator (ParsedIntent in
the data model). Date strings are modelled as their parsed calendar dates;
an absent optional field is none. -/
structure ParsedQuery where
  intent : String
  days : Option Int := none
  startDate : Option Ymd := none
  endDate : Option Ymd := none
  period1 : Option Period := none
  period2 : Option Period := none
  specialRequirements : Option String := none
  cronExpression : Option String := none
deriving DecidableEq, Repr

/-- JavaScript truthiness of an optional string: absent and empty are falsy. -/
def truthyOptStr : Option String → Bool
  | none => false
  | some s => !(s == "")

/-- JavaScript truthiness of an optional number: absent and zero are falsy. -/
def truthyOptInt : Option Int → Bool
  | none => false
  | some n => !(n == 0)

/-- The specialRequirements field the engine adds to its cache key params:
present only when the parsed query carries a truthy value. -/
def srField (parsedQuery : ParsedQuery) : Option String :=
  match parsedQuery.specialRequirements with
  | some s => if s == "" then none else some s
  | none => none

/-- getDateRange from the engine source: explicit dates win; otherwise an
intent mentioning month gets first-of-previous-month to first-of-current-
month; otherwise a window of days (default 7) ending now. -/
def getDateRange (parsedQuery : ParsedQuery) (now : Ymd) : Ymd × Ymd :=
  match parsedQuery.startDate, parsedQuery.endDate with
  | some s, some e => (s, e)
  | _, _ =>
    if containsSub (toLowerStr parsedQuery.intent) "month" then
      (jsMonthDate now.year (now.month - 1), jsMonthDate now.year now.month)
    else
      let days := match parsedQuery.days with
        | some d => if d == 0 then 7 else d
        | none => 7
      (jsSetDate now (now.day - days), now)

/-- The date range the deferred processor computes for a ledger row:
explicit dates win; otherwise a truthy days count gives a window of that
many days ending now; otherwise 14 days ending now. -/
def processorDateRange (parsedQuery : ParsedQuery) (now : Ymd) : Ymd × Ymd :=
  match parsedQuery.startDate, parsedQuery.endDate with
  | some s, some e => (s, e)
  | _, _ =>
    if truthyOptInt parsedQuery.days then
      (jsSetDate now (now.day - parsedQuery.days.getD 0), now)
    else
      (jsSetDate now (now.day - 14), now)

/-- JSON.stringify output for the groupBy array of a service-level query. -/
def groupByServiceJson : String :=
  "[\x7b\"Type\":\"DIMENSION\",\"Key\":\"SERVICE\"\x7d]"

/-- JSON.stringify output for the groupBy array of a resource-level query. -/
def groupByResourceJson : String :=
  "[\x7b\"Type\":\"DIMENSION\",\"Key\":\"RESOURCE_ID\"\x7d]"

/-- JSON.stringify output for a single-period cache key params object, with
fields in the insertion order the source uses: start, end, groupBy,
granularity, then specialRequirements only when the caller set it. -/
def cacheKeyJson (startS endS groupByJson granularity : String)
    (specialRequirements : Option String) : String :=
  "\x7b\"start\":" ++ jsonStr startS ++ ",\"end\":" ++ jsonStr endS ++
  ",\"groupBy\":" ++ groupByJson ++ ",\"granularity\":" ++ jsonStr granularity ++
  (match specialRequirements with
   | some sr => ",\"specialRequirements\":" ++ jsonStr sr
   | none => "") ++ "\x7d"

/-- Granularity of the engine standard (non-resource) path: MONTHLY for an
intent mentioning month, else DAILY. -/
def standardGranularity (parsedQuery : ParsedQuery) : String :=
  if containsSub (toLowerStr parsedQuery.intent) "month" then "MONTHLY" else "DAILY"

/-- The cache key the engine computes on its standard (service-level) path. -/
def engineStandardCacheKey (parsedQuery : ParsedQuery) (now : Ymd) : String :=
  generateCacheKey (cacheKeyJson
    (isoDate (getDateRange parsedQuery now).1)
    (isoDate (getDateRange parsedQuery now).2)
    groupByServiceJson
    (standardGranularity parsedQuery)
    (srField parsedQuery))

/-- The cache key the engine computes on its resource-level path before
writing the PENDING ledger row. -/
def engineResourceCacheKey (parsedQuery : ParsedQuery) (now : Ymd) : String :=
  generateCacheKey (cacheKeyJson
    (isoDate (getDateRange parsedQuery now).1)
    (isoDate (getDateRange parsedQuery now).2)
    groupByResourceJson
    "DAILY"
    (srField parsedQuery))

/-- The cache key the deferred processor recomputes when handling a ledger
insert event: same four fields, but never a specialRequirements field. -/
def processorCacheKey (parsedQuery : ParsedQuery) (now : Ymd) : String :=
  generateCacheKey (cacheKeyJson
    (isoDate (processorDateRange parsedQuery now).1)
    (isoDate (processorDateRange parsedQuery now).2)
    groupByResourceJson
    "DAILY"
    none)

/-- An ordered baseline/comparison pair of periods. -/
structure ComparisonPair where
  baseline : Period
  comparison : Period
deriving DecidableEq, Repr

/-- toFullMonthPeriod from the source: coerce a period to the full calendar
month of its start date, end exclusive at the first of the next month. Only
the start date of the input is consulted. -/
def toFullMonthPeriod (period : Period) : Period :=
  { start := jsMonthDate period.start.year period.start.month,
    stop := jsMonthDate period.start.year (period.start.month + 1) }

/-- prepareComparisonPeriods from the source: normalize both periods to full
calendar months, then order them so the earlier is the baseline. -/
def prepareComparisonPeriods (period1 period2 : Period) : ComparisonPair :=
  let normalizedPeriod1 := toFullMonthPeriod period1
  let normalizedPeriod2 := toFullMonthPeriod period2
  if ymdLt normalizedPeriod1.start normalizedPeriod2.start then
    { baseline := normalizedPeriod1, comparison := normalizedPeriod2 }
  else
    { baseline := normalizedPeriod2, comparison := normalizedPeriod1 }

/-- A cache table item as DDBUtils.setCache writes it: the serialized
backend payload, the artifact URL, the write-time epoch milliseconds, and
(in the latest DDBUtils generation) the narrative summary. -/
structure CacheEntry where
  data : String
  reportUrl : String
  timestamp : Nat
  summary : Option String
deriving DecidableEq, Repr

/-- The durable cache store: an association list from cache key to entry,
last writer first. -/
abbrev CacheStore := List (String × CacheEntry)

/-- Single-key read against the store. -/
def storeGet (store : CacheStore) (cacheKey : String) : Option CacheEntry :=
  (store.find? (fun p => p.1 == cacheKey)).map (fun p => p.2)

/-- What DDBUtils.getCache hands back to its callers. -/
structure CacheGetResult where
  hit : Bool
  data : String := ""
  reportUrl : Option String := none
  summary : Option String := none
deriving DecidableEq, Repr

/-- DDBUtils.getCache: a read error is caught and treated as a miss; an
item older than 12 hours is a miss; reportUrl and summary fall back to
null when absent or empty. -/
def getCache (readFails : Bool) (store : CacheStore) (nowMs : Nat)
    (cacheKey : String) : CacheGetResult :=
  if readFails then { hit := false }
  else match storeGet store cacheKey with
  | some item =>
    if nowMs - item.timestamp < 12 * 60 * 60 * 1000 then
      { hit := true
        data := item.data
        reportUrl := if item.reportUrl == "" then none else some item.reportUrl
        summary := match item.summary with
          | some s => if s == "" then none else some s
          | none => none }
    else { hit := false }
  | none => { hit := false }

/-- A request ledger row as saveReport writes it (reportUrl and
costSummaryText start as PENDING for a deferred request). -/
structure LedgerRow where
  requestId : String
  userCommand : String
  parsedJsonQuery : ParsedQuery
  reportUrl : String
  costSummaryText : String
  email : Option String
deriving DecidableEq, Repr

/-- Oracle inputs for one engine invocation: the clock, generated ids, the
narrative generator output, the billing fetch outcome, and cache-store
fault switches. -/
structure EngineEnv where
  now : Ymd
  nowMs : Nat
  uuid : String
  reportId : String
  cfUrl : String
  bedrockResponse : String
  fetchResult : Except String String
  cacheReadFails : Bool := false
  setCacheFail : Option String := none
deriving DecidableEq, Repr

/-- The JSON body of an API Gateway response from the engine. -/
structure ApiResponse where
  statusCode : Nat
  message : String
  reportUrl : Option String := none
  summary : Option String := none
  requestId : Option String := none
  needEmail : Bool := false
deriving DecidableEq, Repr

/-- Observable side effects of one engine invocation: billing fetch count,
artifact-store uploads, the cache store afterwards, and ledger inserts. -/
structure EngineEffects where
  fetches : Nat := 0
  s3Puts : List String := []
  cacheAfter : CacheStore
  ledgerInserts : List LedgerRow := []
deriving DecidableEq, Repr

/-- The artifact URL of the standard path: CF_URL slash the pdf key built
from the generated report id. -/
def standardPdfUrl (env : EngineEnv) : String :=
  env.cfUrl ++ "/" ++ ("cost-reports/" ++ env.reportId ++ ".pdf")

/-- The generation tail of the standard path, entered with the billing data
in hand: narrative, pdf plus text upload, cache write (which rethrows on
failure), then the Generated response. -/
def generatePhase (env : EngineEnv) (requestId cacheKey data : String)
    (fetches : Nat) (cache : CacheStore) : Except String ApiResponse × EngineEffects :=
  let costSummaryText := trimStr env.bedrockResponse
  let pdfKey := "cost-reports/" ++ env.reportId ++ ".pdf"
  let textKey := "cost-reports/" ++ env.reportId ++ ".txt"
  let reportUrl := env.cfUrl ++ "/" ++ pdfKey
  match env.setCacheFail with
  | some msg =>
    (Except.error msg,
     { fetches := fetches, s3Puts := [pdfKey, textKey], cacheAfter := cache })
  | none =>
    (Except.ok
      { statusCode := 200
        message := "Cost Report generated successfully✅. You can view the report here: " ++ reportUrl
        reportUrl := some reportUrl
        summary := some costSummaryText
        requestId := some requestId },
     { fetches := fetches
       s3Puts := [pdfKey, textKey]
       cacheAfter := (cacheKey,
         { data := data, reportUrl := reportUrl, timestamp := env.nowMs,
           summary := some costSummaryText }) :: cache })

/-- The standard (service-level, synchronous) path of costReportHandler:
cache lookup, fresh-hit-with-artifact short circuit, otherwise fetch
(rethrowing fetch errors) and generate. -/
def standardReportPath (env : EngineEnv) (parsedQuery : ParsedQuery)
    (requestId : String) (cache : CacheStore) : Except String ApiResponse × EngineEffects :=
  let cacheKey := engineStandardCacheKey parsedQuery env.now
  let cacheResult := getCache env.cacheReadFails cache env.nowMs cacheKey
  match cacheResult.hit, cacheResult.reportUrl with
  | true, some cachedUrl =>
    (Except.ok
      { statusCode := 200
        message := "Please view the report here: " ++ cachedUrl
        reportUrl := some cachedUrl
        summary := some (cacheResult.summary.getD "")
        requestId := some requestId },
     { cacheAfter := cache })
  | true, none =>
    generatePhase env requestId cacheKey cacheResult.data 0 cache
  | false, _ =>
    match env.fetchResult with
    | Except.error e => (Except.error e, { fetches := 1, cacheAfter := cache })
    | Except.ok data => generatePhase env requestId cacheKey data 1 cache

/-- The resource-level path of costReportHandler: cache lookup on the
resource key; a fresh hit with an artifact is returned at once; otherwise a
PENDING ledger row is written and the request is accepted for deferred
processing, asking for an email when none was supplied. -/
def resourceReportPath (env : EngineEnv) (parsedQuery : ParsedQuery)
    (userEmail : Option String) (requestId : String) (userCommand : String)
    (cache : CacheStore) : Except String ApiResponse × EngineEffects :=
  let resourceCacheKey := engineResourceCacheKey parsedQuery env.now
  let cacheResult := getCache env.cacheReadFails cache env.nowMs resourceCacheKey
  match cacheResult.hit, cacheResult.reportUrl with
  | true, some cachedUrl =>
    (Except.ok
      { statusCode := 200
        message := "Please view the cached resource-level report here: " ++ cachedUrl
        reportUrl := some cachedUrl
        summary := some (cacheResult.summary.getD "")
        requestId := some requestId },
     { cacheAfter := cache })
  | _, _ =>
    let row : LedgerRow :=
      { requestId := requestId
        userCommand := userCommand
        parsedJsonQuery := parsedQuery
        reportUrl := "PENDING"
        costSummaryText := "PENDING"
        email := if truthyOptStr userEmail then userEmail else none }
    if truthyOptStr userEmail then
      (Except.ok
        { statusCode := 200
          message := "Thank you! The resource-level cost report will be sent to " ++
            userEmail.getD "" ++ " when ready. Your Request ID is " ++ requestId ++ "."
          requestId := some requestId },
       { cacheAfter := cache, ledgerInserts := [row] })
    else
      (Except.ok
        { statusCode := 202
          message := "Your cost report with resource-level breakdown is being generated. Please provide your email address to receive the report when it's ready."
          requestId := some requestId
          needEmail := true },
       { cacheAfter := cache, ledgerInserts := [row] })

/-- JSON.stringify output for a normalized period object (start then end,
the insertion order prepareComparisonPeriods uses). -/
def periodJson (p : Period) : String :=
  "\x7b\"start\":" ++ jsonStr (isoDate p.start) ++ ",\"end\":" ++ jsonStr (isoDate p.stop) ++ "\x7d"

/-- JSON.stringify output for the comparison cache key params object, with
fields in the insertion order the source uses. -/
def comparisonCacheKeyJson (pc : ComparisonPair) (specialRequirements : Option String) : String :=
  "\x7b\"type\":\"comparison\",\"baseline\":" ++ periodJson pc.baseline ++
  ",\"comparison\":" ++ periodJson pc.comparison ++
  ",\"metricForComparison\":\"UnblendedCost\",\"granularity\":\"MONTHLY\",\"groupBy\":" ++
  groupByServiceJson ++
  (match specialRequirements with
   | some sr => ",\"specialRequirements\":" ++ jsonStr sr
   | none => "") ++ "\x7d"

/-- The generation tail of the comparison path: narrative, single pdf
upload, cache write (which rethrows on failure), then the success
response. -/
def comparisonGenerate (env : EngineEnv) (requestId cacheKey comparisonData : String)
    (fetches : Nat) (cache : CacheStore) : Except String ApiResponse × EngineEffects :=
  let costSummaryText := trimStr env.bedrockResponse
  let pdfKey := "cost-reports/" ++ env.reportId ++ "-comparison.pdf"
  let reportUrl := env.cfUrl ++ "/" ++ pdfKey
  match env.setCacheFail with
  | some msg =>
    (Except.error msg, { fetches := fetches, s3Puts := [pdfKey], cacheAfter := cache })
  | none =>
    (Except.ok
      { statusCode := 200
        message := "Cost Comparison Report generated successfully✅. You can view the report here: " ++ reportUrl
        reportUrl := some reportUrl
        summary := some costSummaryText
        requestId := some requestId },
     { fetches := fetches
       s3Puts := [pdfKey]
       cacheAfter := (cacheKey,
         { data := comparisonData, reportUrl := reportUrl, timestamp := env.nowMs,
           summary := some costSummaryText }) :: cache })

/-- The month-comparison path of costReportHandler: validate periods,
normalize and order them, consult the cache, fetch the comparison on a miss
(a fetch failure is caught and answered with a 500 response), then generate
the comparison artifact and cache it. -/
def comparisonReportPath (env : EngineEnv) (parsedQuery : ParsedQuery)
    (requestId : String) (cache : CacheStore) : Except String ApiResponse × EngineEffects :=
  match parsedQuery.period1, parsedQuery.period2 with
  | some period1, some period2 =>
    let pc := prepareComparisonPeriods period1 period2
    let cacheKey := generateCacheKey (comparisonCacheKeyJson pc (srField parsedQuery))
    let cacheResult := getCache env.cacheReadFails cache env.nowMs cacheKey
    match cacheResult.hit, cacheResult.reportUrl with
    | true, some cachedUrl =>
      (Except.ok
        { statusCode := 200
          message := "Please view the comparison report here: " ++ cachedUrl
          reportUrl := some cachedUrl
          summary := some (cacheResult.summary.getD "")
          requestId := some requestId },
       { cacheAfter := cache })
    | true, none =>
      comparisonGenerate env requestId cacheKey cacheResult.data 0 cache
    | false, _ =>
      match env.fetchResult with
      | Except.error e =>
        (Except.ok
          { statusCode := 500
            message := "Failed to generate comparison report: " ++ e
            requestId := some requestId },
         { fetches := 1, cacheAfter := cache })
      | Except.ok comparisonData =>
        comparisonGenerate env requestId cacheKey comparisonData 1 cache
  | _, _ =>
    (Except.ok
      { statusCode := 400
        message := "Invalid comparison periods provided."
        requestId := some requestId },
     { cacheAfter := cache })

/-- Whether the parsed query is a month-to-month comparison request: the
intent mentions both compare and month. -/
def isMonthComparisonRequest (parsedQuery : ParsedQuery) : Bool :=
  containsSub (toLowerStr parsedQuery.intent) "compare" &&
  containsSub (toLowerStr parsedQuery.intent) "month"

/-- requestId resolution at the top of costReportHandler: a truthy
caller-supplied id wins, else a fresh uuid. -/
def resolveRequestId (requestId0 : Option String) (env : EngineEnv) : String :=
  if truthyOptStr requestId0 then requestId0.getD "" else env.uuid

/-- costReportHandler from the engine source: dispatch to the comparison
path, the resource-level deferred path, or the standard synchronous path. -/
def costReportHandler (env : EngineEnv) (parsedQuery : ParsedQuery)
    (userEmail : Option String) (requestId0 : Option String) (userCommand : String)
    (cache : CacheStore) : Except String ApiResponse × EngineEffects :=
  let requestId := resolveRequestId requestId0 env
  if isMonthComparisonRequest parsedQuery then
    comparisonReportPath env parsedQuery requestId cache
  else if containsSub (toLowerStr parsedQuery.intent) "resource" then
    resourceReportPath env parsedQuery userEmail requestId userCommand cache
  else
    standardReportPath env parsedQuery requestId cache

/-- The NewImage of a DynamoDB stream record as the processor reads it.
parsedJsonQuery is the stored JSON text: none when the attribute is absent,
some none when present but not parseable, some (some q) when it parses. -/
structure NewImage where
  requestId : Option String := none
  parsedJsonQuery : Option (Option ParsedQuery) := none
  email : Option String := none
  reportUrl : Option String := none
  userCommand : Option String := none
deriving DecidableEq, Repr

/-- One DynamoDB stream record. -/
structure StreamRecord where
  eventName : String
  newImage : Option NewImage
deriving DecidableEq, Repr

/-- Oracle inputs for one deferred-processor invocation. -/
structure ProcEnv where
  now : Ymd
  nowMs : Nat
  cfUrl : String
  bedrockResponse : String
  fetchResult : Except String String
  cacheReadFails : Bool := false
deriving Repr

/-- The external actions a processor run performs, in order: a Cost
Explorer fetch, a cache write, an email send attempt, or a ledger row
update (reportUrl plus costSummaryText). -/
inductive ProcAction where
  | ceFetch (startDate endDate : String)
  | cacheWrite (cacheKey reportUrl data : String)
  | sendEmail (dest body : String)
  | ledgerUpdate (requestId reportUrl costSummaryText : String)
deriving DecidableEq, Repr

/-- The generation tail of the processor: narrative, pdf, upload, cache
write, email, and only then the terminal ledger update — in exactly the
order the source performs them. -/
def processorGenerate (env : ProcEnv) (requestId email cacheKey data : String) :
    List ProcAction :=
  let costSummaryText := trimStr env.bedrockResponse
  let pdfKey := "cost-reports/" ++ requestId ++ ".pdf"
  let finalReportUrl := env.cfUrl ++ "/" ++ pdfKey
  [ProcAction.cacheWrite cacheKey finalReportUrl data,
   ProcAction.sendEmail email
     ("Your AWS Resource-level Cost Report is ready.\n\nYou can download the PDF report here: " ++
      finalReportUrl ++ "\n\nSummary:\n" ++ costSummaryText),
   ProcAction.ledgerUpdate requestId finalReportUrl costSummaryText]

/-- The deferred processor handling of one stream record
(async-cost-report-sender handler body): guards, date range, cache key,
cache lookup, then either the cached-artifact delivery, an ERROR ledger
update on fetch failure, or fresh generation. Returns the ordered list of
external actions performed. -/
def processRecord (env : ProcEnv) (record : StreamRecord) (cache : CacheStore) :
    List ProcAction :=
  if !(record.eventName == "INSERT") then []
  else match record.newImage with
  | none => []
  | some newImage =>
    if !truthyOptStr newImage.requestId || !newImage.parsedJsonQuery.isSome ||
       !truthyOptStr newImage.email then []
    else if truthyOptStr newImage.reportUrl &&
            !(newImage.reportUrl.getD "" == "PENDING") then []
    else match newImage.parsedJsonQuery with
    | some none => []
    | none => []
    | some (some parsedQuery) =>
      let requestId := newImage.requestId.getD ""
      let email := newImage.email.getD ""
      let range := processorDateRange parsedQuery env.now
      let cacheKey := processorCacheKey parsedQuery env.now
      let cacheResult := getCache env.cacheReadFails cache env.nowMs cacheKey
      match cacheResult.hit, cacheResult.reportUrl with
      | true, some cachedReportUrl =>
        [ProcAction.ledgerUpdate requestId cachedReportUrl "Report generated from cache.",
         ProcAction.sendEmail email
           ("Your AWS Resource-level Cost Report is ready.\n\nYou can download the PDF report here: " ++
            cachedReportUrl)]
      | true, none =>
        processorGenerate env requestId email cacheKey cacheResult.data
      | false, _ =>
        match env.fetchResult with
        | Except.error e =>
          [ProcAction.ceFetch (isoDate range.1) (isoDate range.2),
           ProcAction.ledgerUpdate requestId "ERROR" ("Failed to generate report: " ++ e)]
        | Except.ok data =>
          ProcAction.ceFetch (isoDate range.1) (isoDate range.2) ::
          processorGenerate env requestId email cacheKey data

/-- True when some terminal ledger update occurs no later than the first
email send in the action list. -/
def ledgerPrecedesEmail : List ProcAction → Bool
  | [] => true
  | ProcAction.ledgerUpdate _ _ _ :: _ => true
  | ProcAction.sendEmail _ _ :: _ => false
  | _ :: rest => ledgerPrecedesEmail rest

/-- Whether an action is a ledger update. -/
def isLedgerUpdate : ProcAction → Bool
  | ProcAction.ledgerUpdate _ _ _ => true
  | _ => false

/-- True when an email send occurs strictly before any ledger update. -/
def emailPrecedesLedger : List ProcAction → Bool
  | [] => false
  | ProcAction.sendEmail _ _ :: rest => rest.any isLedgerUpdate
  | ProcAction.ledgerUpdate _ _ _ :: _ => false
  | _ :: rest => emailPrecedesLedger rest

/-- Whether an action is a billing-data fetch. -/
def isCeFetch : ProcAction → Bool
  | ProcAction.ceFetch _ _ => true
  | _ => false

/-- The routing result identifyIntent returns: the resolved type tag,
whether a handler exists, and a confidence label. -/
structure IntentResult where
  type : String
  hasHandler : Bool
  confidence : String
deriving DecidableEq, Repr

/-- identifyIntent from the engine source: exact match against the handler
table keys (scheduled, resource, monthly, daily) at high confidence, then
substring fallbacks at medium confidence, else UNKNOWN. -/
def identifyIntent (parsedQuery : ParsedQuery) : IntentResult :=
  let intent := toLowerStr parsedQuery.intent
  if intent == "scheduled" || intent == "resource" || intent == "monthly" || intent == "daily" then
    { type := intent, hasHandler := true, confidence := "high" }
  else if containsSub intent "schedule" || containsSub intent "recurring" then
    { type := "scheduled", hasHandler := true, confidence := "medium" }
  else if containsSub intent "resource" then
    { type := "resource", hasHandler := true, confidence := "medium" }
  else if containsSub intent "month" then
    { type := "monthly", hasHandler := true, confidence := "medium" }
  else
    { type := "UNKNOWN", hasHandler := false, confidence := "none" }

/-- validateParsedQuery from the engine source: a validation table keyed by
the names SCHEDULED_COST_REPORT, RESOURCE_BREAKDOWN and BILLING_REPORT; an
intent type with no entry in the table passes with no validation at all. -/
def validateParsedQuery (parsedQuery : ParsedQuery) (intentType : String) :
    Except String Unit :=
  if intentType == "SCHEDULED_COST_REPORT" then
    if truthyOptStr parsedQuery.cronExpression then Except.ok ()
    else Except.error "Cron expression is required for scheduled reports"
  else if intentType == "RESOURCE_BREAKDOWN" then
    if truthyOptInt parsedQuery.days &&
       (decide (parsedQuery.days.getD 0 < 1) || decide (14 < parsedQuery.days.getD 0)) then
      Except.error "Days must be between 1 and 14"
    else Except.ok ()
  else if intentType == "BILLING_REPORT" then
    match parsedQuery.startDate, parsedQuery.endDate with
    | some s, some e =>
      if ymdLt e s then Except.error "Start date cannot be after end date" else Except.ok ()
    | _, _ => Except.ok ()
  else Except.ok ()

/-- Modelled from the spec: the default window the data-model section
assigns to a monthly intent with no explicit dates, namely the current
calendar month (first of the current month up to the first of the next
month). The engine source is compared against this. -/
def specCurrentCalendarMonth (now : Ymd) : Ymd × Ymd :=
  (jsMonthDate now.year now.month, jsMonthDate now.year (now.month + 1))

/-! Helper lemmas shared by the claim theorems. -/

/-- Reading an empty store misses. -/
theorem storeGet_nil (cacheKey : String) : storeGet [] cacheKey = none := rfl

/-- Reading the key just written returns the entry just written. -/
theorem storeGet_cons_self (store : CacheStore) (cacheKey : String) (entry : CacheEntry) :
    storeGet ((cacheKey, entry) :: store) cacheKey = some entry := by
  have h : List.find? (fun p : String × CacheEntry => p.1 == cacheKey)
      ((cacheKey, entry) :: store) = some (cacheKey, entry) :=
    List.find?_cons_of_pos _ (beq_self_eq_true cacheKey)
  unfold storeGet
  rw [h]
  rfl

/-- A string with a nonempty suffix is nonempty. -/
theorem append_ne_empty (s t : String) (h : t.length ≠ 0) : s ++ t ≠ "" := by
  intro he
  have hlen : (s ++ t).length = 0 := by rw [he]; rfl
  rw [String.length_append] at hlen
  omega

/-- The standard-path artifact URL is never the empty string. -/
theorem standardPdfUrl_ne_empty (env : EngineEnv) : standardPdfUrl env ≠ "" := by
  unfold standardPdfUrl
  rw [String.append_assoc]
  apply append_ne_empty
  rw [String.length_append]
  have h1 : ("/" : String).length = 1 := rfl
  omega

/-- Collapsing the empty-string normalization getCache applies to a stored
value. -/
theorem emptyNorm_getD (s : String) :
    ((if s == "" then none else some s : Option String).getD "") = s := by
  by_cases h : s = "" <;> simp [h]

/-- A falsy specialRequirements field is dropped from the key params. -/
theorem srField_of_falsy (parsedQuery : ParsedQuery)
    (h : truthyOptStr parsedQuery.specialRequirements = false) :
    srField parsedQuery = none := by
  unfold truthyOptStr at h
  unfold srField
  cases hsr : parsedQuery.specialRequirements with
  | none => rfl
  | some s =>
    rw [hsr] at h
    simp at h
    simp [h]

/-- Strict date order is asymmetric. -/
theorem ymdLt_asymm (a b : Ymd) (h : ymdLt a b = true) : ymdLt b a = false := by
  unfold ymdLt at *
  simp only [decide_eq_true_eq] at h
  simp only [decide_eq_false_iff_not]
  omega

/-- Two dates neither of which precedes the other are equal. -/
theorem ymdLt_false_antisymm (a b : Ymd) (h1 : ymdLt a b = false)
    (h2 : ymdLt b a = false) : a = b := by
  cases a; cases b
  unfold ymdLt at *
  simp only [decide_eq_false_iff_not] at h1 h2
  simp only [Ymd.mk.injEq]
  omega

/-- A full-month normalization is determined by its start date: equal
normalized starts force equal normalized periods. -/
theorem toFullMonthPeriod_eq_of_start_eq (A B : Period)
    (h : (toFullMonthPeriod A).start = (toFullMonthPeriod B).start) :
    toFullMonthPeriod A = toFullMonthPeriod B := by
  simp only [toFullMonthPeriod, jsMonthDate, Period.mk.injEq, Ymd.mk.injEq,
    and_true] at h ⊢
  split_ifs at h ⊢ <;> omega

/-- C4: for every pair of periods (A, B), prepareComparisonPeriods
normalizes both to full calendar-month boundaries and returns exactly those
two normalized periods, orders them with the baseline starting no later
than the comparison, and is symmetric in its two arguments. -/
theorem c4_comparisonNormalization (A B : Period) :
    (((prepareComparisonPeriods A B).baseline = toFullMonthPeriod A ∧
      (prepareComparisonPeriods A B).comparison = toFullMonthPeriod B) ∨
     ((prepareComparisonPeriods A B).baseline = toFullMonthPeriod B ∧
      (prepareComparisonPeriods A B).comparison = toFullMonthPeriod A)) ∧
    ymdLe (prepareComparisonPeriods A B).baseline.start
      (prepareComparisonPeriods A B).comparison.start = true ∧
    prepareComparisonPeriods A B = prepareComparisonPeriods B A := by
  unfold prepareComparisonPeriods
  cases h1 : ymdLt (toFullMonthPeriod A).start (toFullMonthPeriod B).start with
  | true =>
    have h2 := ymdLt_asymm _ _ h1
    refine ⟨Or.inl ?_, ?_, ?_⟩ <;> simp [h1, h2, ymdLe]
  | false =>
    cases h2 : ymdLt (toFullMonthPeriod B).start (toFullMonthPeriod A).start with
    | true =>
      refine ⟨Or.inr ?_, ?_, ?_⟩ <;> simp [h1, h2, ymdLe]
    | false =>
      have hstart := ymdLt_false_antisymm _ _ h1 h2
      have hper := toFullMonthPeriod_eq_of_start_eq A B hstart
      refine ⟨Or.inl ?_, ?_, ?_⟩ <;> simp [h1, h2, ymdLe, hper]

/-- C8 (amended): for every monthly-billing intent with neither explicit
dates nor a days count, the resolved window is the previous calendar month:
first day of the previous month up to the first day of the current month. -/
theorem c8_monthlyDefaultWindow (parsedQuery : ParsedQuery) (now : Ymd)
    (hm : containsSub (toLowerStr parsedQuery.intent) "month" = true)
    (hs : ¬(parsedQuery.startDate.isSome ∧ parsedQuery.endDate.isSome))
    (hd : parsedQuery.days = none) :
    getDateRange parsedQuery now =
      (jsMonthDate now.year (now.month - 1), jsMonthDate now.year now.month) := by
  unfold getDateRange
  cases hsd : parsedQuery.startDate with
  | some s =>
    cases hed : parsedQuery.endDate with
    | some e => exact absurd ⟨by rw [hsd]; rfl, by rw [hed]; rfl⟩ hs
    | none => simp [hm]
  | none =>
    cases hed : parsedQuery.endDate with
    | some e => simp [hm]
    | none => simp [hm]

/-- The monthly query used in the C8 counterexample: monthly-billing
intent, no explicit dates, no days count. -/
def qC8 : ParsedQuery := { intent := "monthly" }

/-- C8 counterexample: on 2024-06-15 the engine resolves the monthly
default window to May (previous month), not to the current calendar month
the spec promises. -/
theorem c8_counterexample :
    containsSub (toLowerStr qC8.intent) "month" = true ∧
    qC8.startDate = none ∧ qC8.endDate = none ∧ qC8.days = none ∧
    getDateRange qC8 ⟨2024, 5, 15⟩ = (⟨2024, 4, 1⟩, ⟨2024, 5, 1⟩) ∧
    getDateRange qC8 ⟨2024, 5, 15⟩ ≠ specCurrentCalendarMonth ⟨2024, 5, 15⟩ := by
  decide

/-- C8 witness: the amended theorem applied to the concrete monthly query
on 2024-06-15. -/
theorem c8_monthlyDefaultWindow_witness :
    getDateRange qC8 ⟨2024, 5, 15⟩ =
      (jsMonthDate (2024 : Int) ((5 : Int) - 1), jsMonthDate 2024 5) :=
  c8_monthlyDefaultWindow qC8 ⟨2024, 5, 15⟩ (by decide) (by decide) rfl

/-- Every type tag identifyIntent can return. -/
theorem identifyIntent_type_cases (parsedQuery : ParsedQuery) :
    (identifyIntent parsedQuery).type = "scheduled" ∨
    (identifyIntent parsedQuery).type = "resource" ∨
    (identifyIntent parsedQuery).type = "monthly" ∨
    (identifyIntent parsedQuery).type = "daily" ∨
    (identifyIntent parsedQuery).type = "UNKNOWN" := by
  simp only [identifyIntent]
  split_ifs with h1 h2 h3 h4 <;> simp_all [beq_iff_eq] <;> tauto

/-- C10: the validator the main handler runs never rejects: for every
parsed query and every non-UNKNOWN type identifyIntent can return, the
validation table has no entry for that type, so validateParsedQuery
returns ok with no checks (in particular the RESOURCE_BREAKDOWN day-range
rule is unreachable). -/
theorem c10_validatorNeverRejects (parsedQuery routedQuery : ParsedQuery)
    (h : (identifyIntent routedQuery).type ≠ "UNKNOWN") :
    validateParsedQuery parsedQuery (identifyIntent routedQuery).type = Except.ok () := by
  rcases identifyIntent_type_cases routedQuery with h' | h' | h' | h' | h' <;>
    first
    | (rw [h']; rfl)
    | exact absurd h' h

/-- The routed query of the C10 witness: an exact resource intent. -/
def qC10r : ParsedQuery := { intent := "resource" }

/-- The validated query of the C10 witness: a resource request asking for
20 days, beyond the documented 1-to-14-day limit. -/
def qC10v : ParsedQuery := { intent := "resource", days := some 20 }

/-- C10 witness: a 20-day resource request passes validation under the
type identifyIntent actually returns. -/
theorem c10_validatorNeverRejects_witness :
    (identifyIntent qC10r).type ≠ "UNKNOWN" ∧
    validateParsedQuery qC10v (identifyIntent qC10r).type = Except.ok () :=
  ⟨by decide, c10_validatorNeverRejects qC10v qC10r (by decide)⟩

/-- C2: the engine cache key is a function of the resolved window, the
granularity, and the (truthy) specialRequirements alone — two parsed
intents describing the same logical query yield byte-identical keys, field
insertion order in the source request notwithstanding (the key params
object is built by the engine itself in one fixed field order). -/
theorem c2_keyDeterminism (P Pother : ParsedQuery) (now : Ymd)
    (hw : getDateRange P now = getDateRange Pother now)
    (hg : standardGranularity P = standardGranularity Pother)
    (hs : srField P = srField Pother) :
    engineStandardCacheKey P now = engineStandardCacheKey Pother now := by
  unfold engineStandardCacheKey
  rw [hw, hg, hs]

/-- First C2 witness query: a 7-day daily window given by a day count. -/
def qC2a : ParsedQuery := { intent := "daily", days := some 7 }

/-- Second C2 witness query: the same window spelled with explicit dates
and a differently phrased intent. -/
def qC2b : ParsedQuery :=
  { intent := "daily costs", startDate := some ⟨2024, 5, 8⟩, endDate := some ⟨2024, 5, 15⟩ }

/-- C2 witness: on 2024-06-15 the two phrasings resolve to the same window
and produce byte-identical cache keys. -/
theorem c2_keyDeterminism_witness :
    getDateRange qC2a ⟨2024, 5, 15⟩ = getDateRange qC2b ⟨2024, 5, 15⟩ ∧
    engineStandardCacheKey qC2a ⟨2024, 5, 15⟩ = engineStandardCacheKey qC2b ⟨2024, 5, 15⟩ :=
  ⟨by decide, c2_keyDeterminism qC2a qC2b ⟨2024, 5, 15⟩ (by decide) (by decide) (by decide)⟩

/-- When the engine and processor date fallbacks agree: explicit dates, or
a truthy day count on an intent not mentioning month. -/
theorem dateRange_agree (parsedQuery : ParsedQuery) (now : Ymd)
    (hw : (parsedQuery.startDate.isSome ∧ parsedQuery.endDate.isSome) ∨
          (truthyOptInt parsedQuery.days = true ∧
           containsSub (toLowerStr parsedQuery.intent) "month" = false)) :
    getDateRange parsedQuery now = processorDateRange parsedQuery now := by
  unfold getDateRange processorDateRange
  cases hsd : parsedQuery.startDate with
  | some s =>
    cases hed : parsedQuery.endDate with
    | some e => rfl
    | none =>
      rcases hw with ⟨_, h2⟩ | ⟨h1, h2⟩
      · rw [hed] at h2; exact absurd h2 (by simp)
      · cases hdy : parsedQuery.days with
        | none => rw [hdy] at h1; exact absurd h1 (by simp [truthyOptInt])
        | some d =>
          rw [hdy] at h1
          simp only [truthyOptInt] at h1
          simp [h2, truthyOptInt, h1, Option.getD]
          rw [if_neg]
          intro hc
          simp at h1
          exact h1 (by exact_mod_cast hc)
  | none =>
    rcases hw with ⟨h1, _⟩ | ⟨h1, h2⟩
    · rw [hsd] at h1; exact absurd h1 (by simp)
    · cases hdy : parsedQuery.days with
      | none => rw [hdy] at h1; exact absurd h1 (by simp [truthyOptInt])
      | some d =>
        rw [hdy] at h1
        simp only [truthyOptInt] at h1
        simp [h2, truthyOptInt, h1, Option.getD]
        rw [if_neg]
        intro hc
        simp at h1
        exact h1 (by exact_mod_cast hc)

/-- C1 (amended): the Engine resource key and the Processor key recomputed
on the same calendar date are byte-identical exactly when the parsed query
carries no truthy specialRequirements and fixes its window by explicit
dates or by a truthy day count (with an intent not mentioning month); the
specialRequirements case of the original claim fails, as does the
no-dates-no-days default (7 days in the Engine, 14 in the Processor). -/
theorem c1_keyAgreement (parsedQuery : ParsedQuery) (now : Ymd)
    (hsr : truthyOptStr parsedQuery.specialRequirements = false)
    (hw : (parsedQuery.startDate.isSome ∧ parsedQuery.endDate.isSome) ∨
          (truthyOptInt parsedQuery.days = true ∧
           containsSub (toLowerStr parsedQuery.intent) "month" = false)) :
    engineResourceCacheKey parsedQuery now = processorCacheKey parsedQuery now := by
  unfold engineResourceCacheKey processorCacheKey
  rw [srField_of_falsy parsedQuery hsr, dateRange_agree parsedQuery now hw]

/-- The resource query of the C1 counterexample: explicit dates and a
non-empty specialRequirements field. -/
def qC1 : ParsedQuery :=
  { intent := "resource", startDate := some ⟨2024, 5, 1⟩, endDate := some ⟨2024, 5, 10⟩,
    specialRequirements := some "exclude credits" }

/-- C1 counterexample: with a non-empty specialRequirements the Engine key
and the Processor key for the very same parsed query differ, so the claim
fails in exactly the case it singles out. -/
theorem c1_counterexample :
    containsSub (toLowerStr qC1.intent) "resource" = true ∧
    truthyOptStr qC1.specialRequirements = true ∧
    engineResourceCacheKey qC1 ⟨2024, 5, 15⟩ ≠ processorCacheKey qC1 ⟨2024, 5, 15⟩ := by
  decide

/-- The resource query of the C1 witness: day-count window, no
specialRequirements. -/
def qC1w : ParsedQuery := { intent := "resource", days := some 5 }

/-- C1 witness: the amended agreement theorem applied on 2024-06-15 to a
5-day resource query. -/
theorem c1_keyAgreement_witness :
    engineResourceCacheKey qC1w ⟨2024, 5, 15⟩ = processorCacheKey qC1w ⟨2024, 5, 15⟩ :=
  c1_keyAgreement qC1w ⟨2024, 5, 15⟩ (by decide) (Or.inr ⟨by decide, by decide⟩)

/-- Trace of a processor run whose recomputed key has a fresh cache entry
with an artifact: deliver from cache, then notify; nothing else. -/
theorem procHitTrace (env : ProcEnv) (record : StreamRecord) (img : NewImage)
    (parsedQuery : ParsedQuery) (cache : CacheStore) (entry : CacheEntry)
    (hev : record.eventName = "INSERT")
    (himg : record.newImage = some img)
    (hreq : truthyOptStr img.requestId = true)
    (hpq : img.parsedJsonQuery = some (some parsedQuery))
    (hem : truthyOptStr img.email = true)
    (hurl : img.reportUrl = some "PENDING")
    (hrf : env.cacheReadFails = false)
    (hget : storeGet cache (processorCacheKey parsedQuery env.now) = some entry)
    (hfresh : env.nowMs - entry.timestamp < 12 * 60 * 60 * 1000)
    (hart : entry.reportUrl ≠ "") :
    processRecord env record cache =
      [ProcAction.ledgerUpdate (img.requestId.getD "") entry.reportUrl
         "Report generated from cache.",
       ProcAction.sendEmail (img.email.getD "")
         ("Your AWS Resource-level Cost Report is ready.\n\nYou can download the PDF report here: " ++
          entry.reportUrl)] := by
  simp [processRecord, hev, himg, hreq, hpq, hem, hurl, getCache, hrf, hget, hfresh,
    hart, beq_iff_eq]

/-- Trace of a processor run that misses the cache and fetches
successfully: fetch, cache write, email, then the terminal ledger update. -/
theorem procMissTrace (env : ProcEnv) (record : StreamRecord) (img : NewImage)
    (parsedQuery : ParsedQuery) (cache : CacheStore) (data : String)
    (hev : record.eventName = "INSERT")
    (himg : record.newImage = some img)
    (hreq : truthyOptStr img.requestId = true)
    (hpq : img.parsedJsonQuery = some (some parsedQuery))
    (hem : truthyOptStr img.email = true)
    (hurl : img.reportUrl = some "PENDING")
    (hrf : env.cacheReadFails = false)
    (hmiss : storeGet cache (processorCacheKey parsedQuery env.now) = none)
    (hfetch : env.fetchResult = Except.ok data) :
    processRecord env record cache =
      ProcAction.ceFetch (isoDate (processorDateRange parsedQuery env.now).1)
        (isoDate (processorDateRange parsedQuery env.now).2) ::
      processorGenerate env (img.requestId.getD "") (img.email.getD "")
        (processorCacheKey parsedQuery env.now) data := by
  simp [processRecord, hev, himg, hreq, hpq, hem, hurl, getCache, hrf, hmiss, hfetch,
    beq_iff_eq]

/-- C5: a deferred run for a PENDING row whose recomputed cache key has a
fresh entry with an artifact performs no billing fetch, updates the ledger
row to the cached artifact URL (DELIVERED), and sends the notification —
those two actions and nothing else. -/
theorem c5_cacheHitDelivery (env : ProcEnv) (record : StreamRecord) (img : NewImage)
    (parsedQuery : ParsedQuery) (cache : CacheStore) (entry : CacheEntry)
    (hev : record.eventName = "INSERT")
    (himg : record.newImage = some img)
    (hreq : truthyOptStr img.requestId = true)
    (hpq : img.parsedJsonQuery = some (some parsedQuery))
    (hem : truthyOptStr img.email = true)
    (hurl : img.reportUrl = some "PENDING")
    (hrf : env.cacheReadFails = false)
    (hget : storeGet cache (processorCacheKey parsedQuery env.now) = some entry)
    (hfresh : env.nowMs - entry.timestamp < 12 * 60 * 60 * 1000)
    (hart : entry.reportUrl ≠ "") :
    processRecord env record cache =
      [ProcAction.ledgerUpdate (img.requestId.getD "") entry.reportUrl
         "Report generated from cache.",
       ProcAction.sendEmail (img.email.getD "")
         ("Your AWS Resource-level Cost Report is ready.\n\nYou can download the PDF report here: " ++
          entry.reportUrl)] :=
  procHitTrace env record img parsedQuery cache entry hev himg hreq hpq hem hurl hrf
    hget hfresh hart

/-- The parsed query of the processor witnesses. -/
def qProc : ParsedQuery := { intent := "resource", days := some 5 }

/-- The stream image of the processor witnesses: a complete PENDING row. -/
def imgProc : NewImage :=
  { requestId := some "req-9", parsedJsonQuery := some (some qProc),
    email := some "a@b.co", reportUrl := some "PENDING" }

/-- The stream record of the processor witnesses. -/
def recProc : StreamRecord := { eventName := "INSERT", newImage := some imgProc }

/-- The processor environment of the witnesses. -/
def pEnvProc : ProcEnv :=
  { now := ⟨2024, 5, 15⟩, nowMs := 5000, cfUrl := "https://cdn",
    bedrockResponse := "S", fetchResult := Except.ok "D" }

/-- The fresh cached entry of the C5 witness. -/
def entryProc : CacheEntry :=
  { data := "D0", reportUrl := "https://cdn/old.pdf", timestamp := 4000, summary := some "old" }

/-- The cache store of the C5 witness, holding the entry under the
recomputed processor key. -/
def cacheProc : CacheStore := [(processorCacheKey qProc ⟨2024, 5, 15⟩, entryProc)]

/-- C5 witness: the concrete PENDING row against the concrete fresh cache
entry is delivered from cache and notified, with no fetch action. -/
theorem c5_cacheHitDelivery_witness :
    processRecord pEnvProc recProc cacheProc =
      [ProcAction.ledgerUpdate "req-9" "https://cdn/old.pdf" "Report generated from cache.",
       ProcAction.sendEmail "a@b.co"
         ("Your AWS Resource-level Cost Report is ready.\n\nYou can download the PDF report here: " ++
          "https://cdn/old.pdf")] :=
  c5_cacheHitDelivery pEnvProc recProc imgProc qProc cacheProc entryProc rfl rfl
    (by decide) rfl (by decide) rfl rfl
    (storeGet_cons_self [] (processorCacheKey qProc ⟨2024, 5, 15⟩) entryProc)
    (by decide) (by decide)

/-- C6: a redelivered insert event for a row whose reportUrl is already a
terminal value (a nonempty string other than PENDING) is a no-op: the
processor performs no action at all. -/
theorem c6_terminalGuard (env : ProcEnv) (record : StreamRecord) (cache : CacheStore)
    (img : NewImage) (u : String)
    (himg : record.newImage = some img)
    (hurl : img.reportUrl = some u)
    (hne : u ≠ "") (hnp : u ≠ "PENDING") :
    processRecord env record cache = [] := by
  unfold processRecord
  cases hev : record.eventName == "INSERT" with
  | false => simp [hev]
  | true =>
    simp [hev, himg, hurl, truthyOptStr, beq_iff_eq, hne, hnp]

/-- The already-delivered stream image of the C6 witness. -/
def imgDone : NewImage := { imgProc with reportUrl := some "https://cdn/x.pdf" }

/-- C6 witness: redelivering the insert event for the delivered row is a
no-op even with a fresh cache entry available. -/
theorem c6_terminalGuard_witness :
    processRecord pEnvProc { eventName := "INSERT", newImage := some imgDone } cacheProc = [] :=
  c6_terminalGuard pEnvProc { eventName := "INSERT", newImage := some imgDone } cacheProc
    imgDone "https://cdn/x.pdf" rfl rfl (by decide) (by decide)

/-- The fresh-generation stream record of the C7 counterexample: a PENDING
resource row with explicit dates, processed against an empty cache. -/
def recC7 : StreamRecord :=
  { eventName := "INSERT",
    newImage := some
      { requestId := some "req-7",
        parsedJsonQuery := some (some
          { intent := "resource", startDate := some ⟨2024, 5, 1⟩,
            endDate := some ⟨2024, 5, 10⟩ }),
        email := some "a@b.co", reportUrl := some "PENDING" } }

/-- C7 counterexample: a successful fresh-generation run (it ends in a
terminal ledger update carrying the artifact URL) sends the notification
email strictly before the terminal ledger write, so the terminal write
does not happen first. -/
theorem c7_counterexample :
    (processRecord pEnvProc recC7 []).any isLedgerUpdate = true ∧
    emailPrecedesLedger (processRecord pEnvProc recC7 []) = true ∧
    ledgerPrecedesEmail (processRecord pEnvProc recC7 []) = false := by
  decide

/-- C7 (amended): in a successful deferred run resolved from the cache the
terminal ledger write does precede the notification, but in a successful
fresh-generation run the notification is sent strictly before the terminal
ledger write (only the cache write precedes the email there). -/
theorem c7_ledgerEmailOrder (env : ProcEnv) (record : StreamRecord) (img : NewImage)
    (parsedQuery : ParsedQuery) (cache : CacheStore)
    (hev : record.eventName = "INSERT")
    (himg : record.newImage = some img)
    (hreq : truthyOptStr img.requestId = true)
    (hpq : img.parsedJsonQuery = some (some parsedQuery))
    (hem : truthyOptStr img.email = true)
    (hurl : img.reportUrl = some "PENDING")
    (hrf : env.cacheReadFails = false) :
    (∀ entry : CacheEntry,
      storeGet cache (processorCacheKey parsedQuery env.now) = some entry →
      env.nowMs - entry.timestamp < 12 * 60 * 60 * 1000 →
      entry.reportUrl ≠ "" →
      ledgerPrecedesEmail (processRecord env record cache) = true) ∧
    (∀ data : String,
      storeGet cache (processorCacheKey parsedQuery env.now) = none →
      env.fetchResult = Except.ok data →
      emailPrecedesLedger (processRecord env record cache) = true) := by
  constructor
  · intro entry hget hfresh hart
    rw [procHitTrace env record img parsedQuery cache entry hev himg hreq hpq hem hurl
      hrf hget hfresh hart]
    rfl
  · intro data hmiss hfetch
    rw [procMissTrace env record img parsedQuery cache data hev himg hreq hpq hem hurl
      hrf hmiss hfetch]
    rfl

/-- C7 witness: both orderings of the amended theorem observed on the
concrete row — ledger first when served from cache, email first when
freshly generated. -/
theorem c7_ledgerEmailOrder_witness :
    ledgerPrecedesEmail (processRecord pEnvProc recProc cacheProc) = true ∧
    emailPrecedesLedger (processRecord pEnvProc recProc []) = true :=
  ⟨(c7_ledgerEmailOrder pEnvProc recProc imgProc qProc cacheProc rfl rfl (by decide) rfl
      (by decide) rfl rfl).1 entryProc
      (storeGet_cons_self [] (processorCacheKey qProc ⟨2024, 5, 15⟩) entryProc)
      (by decide) (by decide),
   (c7_ledgerEmailOrder pEnvProc recProc imgProc qProc [] rfl rfl (by decide) rfl
      (by decide) rfl rfl).2 "D" rfl rfl⟩

/-- A standard-path run that misses the cache and fetches successfully:
one fetch, both artifacts uploaded, the cache entry written, and the
Generated response returned. -/
theorem standardMissRun (env : EngineEnv) (parsedQuery : ParsedQuery) (requestId : String)
    (cache : CacheStore) (data : String)
    (hrf : env.cacheReadFails = false)
    (hmiss : storeGet cache (engineStandardCacheKey parsedQuery env.now) = none)
    (hfetch : env.fetchResult = Except.ok data)
    (hok : env.setCacheFail = none) :
    standardReportPath env parsedQuery requestId cache =
      (Except.ok
        { statusCode := 200
          message := "Cost Report generated successfully✅. You can view the report here: " ++
            standardPdfUrl env
          reportUrl := some (standardPdfUrl env)
          summary := some (trimStr env.bedrockResponse)
          requestId := some requestId },
       { fetches := 1
         s3Puts := ["cost-reports/" ++ env.reportId ++ ".pdf",
                    "cost-reports/" ++ env.reportId ++ ".txt"]
         cacheAfter := (engineStandardCacheKey parsedQuery env.now,
           { data := data, reportUrl := standardPdfUrl env, timestamp := env.nowMs,
             summary := some (trimStr env.bedrockResponse) }) :: cache }) := by
  simp [standardReportPath, getCache, hrf, hmiss, hfetch, generatePhase, hok, standardPdfUrl]

/-- A standard-path run that finds a fresh cache entry carrying an
artifact and a summary: no fetch, no writes, the Ready response returned. -/
theorem standardHitRun (env : EngineEnv) (parsedQuery : ParsedQuery) (requestId : String)
    (cache : CacheStore) (entry : CacheEntry) (summaryText : String)
    (hrf : env.cacheReadFails = false)
    (hget : storeGet cache (engineStandardCacheKey parsedQuery env.now) = some entry)
    (hfresh : env.nowMs - entry.timestamp < 12 * 60 * 60 * 1000)
    (hsum : entry.summary = some summaryText)
    (hart : entry.reportUrl ≠ "") :
    standardReportPath env parsedQuery requestId cache =
      (Except.ok
        { statusCode := 200
          message := "Please view the report here: " ++ entry.reportUrl
          reportUrl := some entry.reportUrl
          summary := some summaryText
          requestId := some requestId },
       { cacheAfter := cache }) := by
  simp [standardReportPath, getCache, hrf, hget, hfresh, hart, hsum, beq_iff_eq]
  by_cases h : summaryText = "" <;> simp [h]

/-- A daily or monthly billing intent is routed to the standard
synchronous path. -/
theorem standardDispatch (env : EngineEnv) (parsedQuery : ParsedQuery)
    (userEmail requestId0 : Option String) (userCommand : String) (cache : CacheStore)
    (hintent : toLowerStr parsedQuery.intent = "daily" ∨
               toLowerStr parsedQuery.intent = "monthly") :
    costReportHandler env parsedQuery userEmail requestId0 userCommand cache =
      standardReportPath env parsedQuery (resolveRequestId requestId0 env) cache := by
  have h1 : isMonthComparisonRequest parsedQuery = false := by
    unfold isMonthComparisonRequest
    rcases hintent with h | h <;> rw [h] <;> decide
  have h2 : containsSub (toLowerStr parsedQuery.intent) "resource" = false := by
    rcases hintent with h | h <;> rw [h] <;> decide
  simp [costReportHandler, h1, h2]

/-- C3: resolving a cheap (daily or monthly billing) query against an
empty cache performs exactly one billing fetch and returns the freshly
generated artifact URL; an immediate second resolution of the same query
against the resulting cache performs no fetch and returns the same
artifact URL from the cache. -/
theorem c3_missThenHit (env1 env2 : EngineEnv) (parsedQuery : ParsedQuery)
    (userEmail1 userEmail2 requestId1 requestId2 : Option String)
    (userCommand1 userCommand2 data : String)
    (hintent : toLowerStr parsedQuery.intent = "daily" ∨
               toLowerStr parsedQuery.intent = "monthly")
    (hfetch : env1.fetchResult = Except.ok data)
    (hok : env1.setCacheFail = none)
    (hrf1 : env1.cacheReadFails = false) (hrf2 : env2.cacheReadFails = false)
    (hnow : env2.now = env1.now)
    (hfresh : env2.nowMs - env1.nowMs < 12 * 60 * 60 * 1000) :
    (costReportHandler env1 parsedQuery userEmail1 requestId1 userCommand1 []).2.fetches = 1 ∧
    (costReportHandler env1 parsedQuery userEmail1 requestId1 userCommand1 []).1 =
      Except.ok
        { statusCode := 200
          message := "Cost Report generated successfully✅. You can view the report here: " ++
            standardPdfUrl env1
          reportUrl := some (standardPdfUrl env1)
          summary := some (trimStr env1.bedrockResponse)
          requestId := some (resolveRequestId requestId1 env1) } ∧
    (costReportHandler env2 parsedQuery userEmail2 requestId2 userCommand2
      (costReportHandler env1 parsedQuery userEmail1 requestId1 userCommand1 []).2.cacheAfter).2.fetches = 0 ∧
    (costReportHandler env2 parsedQuery userEmail2 requestId2 userCommand2
      (costReportHandler env1 parsedQuery userEmail1 requestId1 userCommand1 []).2.cacheAfter).1 =
      Except.ok
        { statusCode := 200
          message := "Please view the report here: " ++ standardPdfUrl env1
          reportUrl := some (standardPdfUrl env1)
          summary := some (trimStr env1.bedrockResponse)
          requestId := some (resolveRequestId requestId2 env2) } := by
  rw [standardDispatch env1 parsedQuery userEmail1 requestId1 userCommand1 [] hintent,
    standardMissRun env1 parsedQuery (resolveRequestId requestId1 env1) [] data hrf1
      (storeGet_nil _) hfetch hok]
  rw [standardDispatch env2 parsedQuery userEmail2 requestId2 userCommand2 _ hintent]
  have hget : storeGet
      [(engineStandardCacheKey parsedQuery env1.now,
        { data := data, reportUrl := standardPdfUrl env1, timestamp := env1.nowMs,
          summary := some (trimStr env1.bedrockResponse) })]
      (engineStandardCacheKey parsedQuery env2.now) =
      some { data := data, reportUrl := standardPdfUrl env1, timestamp := env1.nowMs,
             summary := some (trimStr env1.bedrockResponse) } := by
    rw [hnow]
    exact storeGet_cons_self [] _ _
  rw [standardHitRun env2 parsedQuery (resolveRequestId requestId2 env2) _ _
    (trimStr env1.bedrockResponse) hrf2 hget hfresh rfl (standardPdfUrl_ne_empty env1)]
  exact ⟨rfl, rfl, rfl, rfl⟩

/-- The daily query of the C3 witness. -/
def qC3 : ParsedQuery := { intent := "daily", days := some 7 }

/-- First engine environment of the C3 witness. -/
def envC3a : EngineEnv :=
  { now := ⟨2024, 5, 15⟩, nowMs := 1000, uuid := "u1", reportId := "r1",
    cfUrl := "https://cdn", bedrockResponse := " summary text ",
    fetchResult := Except.ok "DATA" }

/-- Second engine environment of the C3 witness, two seconds later. -/
def envC3b : EngineEnv :=
  { now := ⟨2024, 5, 15⟩, nowMs := 3000, uuid := "u2", reportId := "r2",
    cfUrl := "https://cdn", bedrockResponse := "other",
    fetchResult := Except.error "should not be called" }

/-- C3 witness: the round trip on the concrete daily query — one fetch and
a Generated response, then zero fetches and the same artifact URL. -/
theorem c3_missThenHit_witness :
    (costReportHandler envC3a qC3 none none "cmd" []).2.fetches = 1 ∧
    (costReportHandler envC3a qC3 none none "cmd" []).1 =
      Except.ok
        { statusCode := 200
          message := "Cost Report generated successfully✅. You can view the report here: " ++
            standardPdfUrl envC3a
          reportUrl := some (standardPdfUrl envC3a)
          summary := some (trimStr envC3a.bedrockResponse)
          requestId := some (resolveRequestId none envC3a) } ∧
    (costReportHandler envC3b qC3 none none "cmd"
      (costReportHandler envC3a qC3 none none "cmd" []).2.cacheAfter).2.fetches = 0 ∧
    (costReportHandler envC3b qC3 none none "cmd"
      (costReportHandler envC3a qC3 none none "cmd" []).2.cacheAfter).1 =
      Except.ok
        { statusCode := 200
          message := "Please view the report here: " ++ standardPdfUrl envC3a
          reportUrl := some (standardPdfUrl envC3a)
          summary := some (trimStr envC3a.bedrockResponse)
          requestId := some (resolveRequestId none envC3b) } :=
  c3_missThenHit envC3a envC3b qC3 none none none none "cmd" "cmd" "DATA"
    (Or.inl rfl) rfl rfl rfl rfl rfl (by decide)

/-- The daily query of the C9 counterexample and witness. -/
def qC9 : ParsedQuery := { intent := "daily", days := some 7 }

/-- C9 environment with a healthy cache store. -/
def envC9ok : EngineEnv :=
  { now := ⟨2024, 5, 15⟩, nowMs := 1000, uuid := "u", reportId := "r",
    cfUrl := "https://cdn", bedrockResponse := "S", fetchResult := Except.ok "D" }

/-- C9 environment identical except that the cache write throws. -/
def envC9fail : EngineEnv := { envC9ok with setCacheFail := some "DynamoDB put failed" }

/-- C9 counterexample: the same resolution that returns the generated
artifact under a healthy cache store returns an error when only the cache
write fails — even though both artifact uploads had already happened — so
a cache-write failure does change the returned result. -/
theorem c9_counterexample :
    (costReportHandler envC9ok qC9 none none "cmd" []).1 =
      Except.ok
        { statusCode := 200
          message := "Cost Report generated successfully✅. You can view the report here: " ++
            standardPdfUrl envC9ok
          reportUrl := some (standardPdfUrl envC9ok)
          summary := some "S"
          requestId := some "u" } ∧
    envC9fail = { envC9ok with setCacheFail := some "DynamoDB put failed" } ∧
    (costReportHandler envC9fail qC9 none none "cmd" []).1 =
      Except.error "DynamoDB put failed" ∧
    (costReportHandler envC9fail qC9 none none "cmd" []).2.s3Puts =
      ["cost-reports/r.pdf", "cost-reports/r.txt"] := by
  decide

/-- C9 (amended): a cache-write failure after successful generation is
fatal to the synchronous response: setCache logs and rethrows and
costReportHandler does not catch, so the caller receives the propagated
error instead of the freshly generated artifact URL, although both
artifact uploads have already happened. -/
theorem c9_cacheWriteFailureFatal (env : EngineEnv) (parsedQuery : ParsedQuery)
    (requestId : String) (cache : CacheStore) (msg data : String)
    (hfail : env.setCacheFail = some msg)
    (hrf : env.cacheReadFails = false)
    (hmiss : storeGet cache (engineStandardCacheKey parsedQuery env.now) = none)
    (hfetch : env.fetchResult = Except.ok data) :
    standardReportPath env parsedQuery requestId cache =
      (Except.error msg,
       { fetches := 1
         s3Puts := ["cost-reports/" ++ env.reportId ++ ".pdf",
                    "cost-reports/" ++ env.reportId ++ ".txt"]
         cacheAfter := cache }) := by
  simp [standardReportPath, getCache, hrf, hmiss, hfetch, generatePhase, hfail]

/-- C9 witness: the amended theorem applied to the concrete failing
environment. -/
theorem c9_cacheWriteFailureFatal_witness :
    standardReportPath envC9fail qC9 "u" [] =
      (Except.error "DynamoDB put failed",
       { fetches := 1
         s3Puts := ["cost-reports/" ++ envC9fail.reportId ++ ".pdf",
                    "cost-reports/" ++ envC9fail.reportId ++ ".txt"]
         cacheAfter := [] }) :=
  c9_cacheWriteFailureFatal envC9fail qC9 "u" [] "DynamoDB put failed" "D" rfl rfl
    (storeGet_nil _) rfl
